import Mathlib

/-!
Shallow embedding of the weather service in
`working_weather_service.py` (classes `WorkingWeatherService` and
`WeatherDataProcessor`), together with proofs of the specified
properties.  JSON numbers are modelled as `ℚ`, epoch timestamps as
`ℤ`, JSON objects as structures whose fields are `Option`-valued
(`none` = key absent), and each outbound HTTP request as an oracle
function stored in an `Env` record (`none` = the request raised,
i.e. network error or non-success status).  A Python function that
catches exceptions and returns `None`/`[]` is modelled by an
`Option`/list result.
-/

namespace Weather

/-- Python `round(q)`: round half to even, returning an integer. -/
def pyRound (q : ℚ) : ℤ :=
  if q - ⌊q⌋ < 1/2 then ⌊q⌋
  else if (1:ℚ)/2 < q - ⌊q⌋ then ⌊q⌋ + 1
  else if ⌊q⌋ % 2 = 0 then ⌊q⌋ else ⌊q⌋ + 1

/-- Python `round(q, 1)`: round half to even at one decimal place. -/
def pyRound1 (q : ℚ) : ℚ := ((pyRound (q * 10) : ℚ)) / 10

/-- `charsStartWith hay pat`: `hay` begins with `pat`. -/
def charsStartWith : List Char → List Char → Bool
  | _, [] => true
  | [], _ :: _ => false
  | h :: hs, p :: ps => h = p && charsStartWith hs ps

/-- `charsContain hay pat`: `pat` occurs contiguously inside `hay`. -/
def charsContain : List Char → List Char → Bool
  | [], pat => pat.isEmpty
  | h :: t, pat => charsStartWith (h :: t) pat || charsContain t pat

/-- Python `pat in s` on strings: contiguous substring test. -/
def strContains (s pat : String) : Bool := charsContain s.toList pat.toList

/-- Split a character list at every occurrence of `sep`. -/
def splitChar (sep : Char) : List Char → List (List Char)
  | [] => [[]]
  | c :: cs =>
    match splitChar sep cs with
    | [] => [[]]
    | g :: gs => if c = sep then [] :: g :: gs else (c :: g) :: gs

/-- Python `s.split(sep)` for a one-character separator. -/
def pySplit (sep : Char) (s : String) : List String :=
  (splitChar sep s.toList).map String.mk

/-- Parse a non-empty all-digit character list as a decimal number. -/
def pyDigits? (l : List Char) : Option ℕ :=
  if l ≠ [] ∧ l.all Char.isDigit then
    some (l.foldl (fun n c => 10 * n + (c.toNat - 48)) 0)
  else none

/-- Python `int(s)` for an unsigned decimal string (`none` = raise). -/
def pyToNat? (s : String) : Option ℕ := pyDigits? s.toList

/-- Python `s.lower()`. -/
def pyLower (s : String) : String := String.mk (s.toList.map Char.toLower)

/-- Python `s.strip()`: drop leading and trailing whitespace. -/
def pyStrip (s : String) : String :=
  String.mk (((s.toList.dropWhile Char.isWhitespace).reverse.dropWhile
    Char.isWhitespace).reverse)

/-- Evaluating a list of extractions, failing if any element fails:
models a Python list comprehension over `day_items` in which a
`KeyError`/`IndexError` aborts the whole computation. -/
def optMapM (f : α → Option β) : List α → Option (List β)
  | [] => some []
  | x :: xs =>
    match f x, optMapM f xs with
    | some y, some ys => some (y :: ys)
    | _, _ => none

/-- One insertion into a Python set, remembering first-insertion order
of the distinct elements. -/
def pySetInsert (acc : List String) (x : String) : List String :=
  if x ∈ acc then acc else acc ++ [x]

/-- The sequence of distinct elements of `l` in first-occurrence
order: the insertion history that determines the iteration order of
the CPython set `set(l)`. -/
def pySetList (l : List String) : List String := l.foldl pySetInsert []

/-- Python `max(..., key=k)` main loop: keep the current champion
unless the next element's key is strictly larger (so the first
maximum in iteration order wins). -/
def pyMaxFold (key : α → ℕ) (cur : α) : List α → α
  | [] => cur
  | x :: xs => pyMaxFold key (if key x > key cur then x else cur) xs

/-- Python `max(l, key=k)`; `none` models the `ValueError` raised on
an empty iterable. -/
def pyMaxL (key : α → ℕ) : List α → Option α
  | [] => none
  | x :: xs => some (pyMaxFold key x xs)

/-! ### Calendar arithmetic

Models the fragments of `datetime` that the service uses:
epoch-seconds/civil-date conversion (Howard Hinnant's algorithms),
`strftime` with the formats appearing in the source, and strict
`YYYY-MM-DD` parsing for `fromisoformat`/`strptime`.  The local
timezone of `datetime.now()`/`fromtimestamp` is an explicit offset
`tz` in seconds east of UTC. -/

def isLeap (y : ℕ) : Bool := (y % 4 = 0 && y % 100 ≠ 0) || y % 400 = 0

def daysInMonth (y m : ℕ) : ℕ :=
  if m = 2 then (if isLeap y then 29 else 28)
  else if m = 4 ∨ m = 6 ∨ m = 9 ∨ m = 11 then 30
  else 31

/-- Civil date of day number `z` (days since 1970-01-01). -/
def civilFromDays (z : ℤ) : ℤ × ℕ × ℕ :=
  let z' := z + 719468
  let era := z'.fdiv 146097
  let doe := z'.emod 146097
  let yoe := (doe - doe / 1460 + doe / 36524 - doe / 146096) / 365
  let y := yoe + era * 400
  let doy := doe - (365 * yoe + yoe / 4 - yoe / 100)
  let mp := (5 * doy + 2) / 153
  let d := doy - (153 * mp + 2) / 5 + 1
  let m := mp + (if mp < 10 then 3 else -9)
  (y + (if m ≤ 2 then 1 else 0), m.toNat, d.toNat)

/-- Day number (days since 1970-01-01) of a civil date. -/
def daysFromCivil (y : ℤ) (m d : ℕ) : ℤ :=
  let y' := y - (if m ≤ 2 then 1 else 0)
  let era := y'.fdiv 400
  let yoe := y' - era * 400
  let doy : ℤ := (153 * ((m : ℤ) + (if 2 < m then -3 else 9)) + 2) / 5 + (d : ℤ) - 1
  let doe := yoe * 365 + yoe / 4 - yoe / 100 + doy
  era * 146097 + doe - 719468

/-- Local day number of epoch timestamp `ts` under offset `tz`. -/
def localDays (tz ts : ℤ) : ℤ := (ts + tz).fdiv 86400

/-- Epoch timestamp of the most recent local midnight before `now`. -/
def localMidnight (tz now : ℤ) : ℤ := localDays tz now * 86400 - tz

def pad2 (n : ℕ) : String := if n < 10 then "0" ++ toString n else toString n

def pad4 (n : ℕ) : String :=
  if n < 10 then "000" ++ toString n
  else if n < 100 then "00" ++ toString n
  else if n < 1000 then "0" ++ toString n
  else toString n

/-- `datetime.fromtimestamp(ts).strftime(%Y-%m-%d)` under offset `tz`. -/
def dateStrOf (tz ts : ℤ) : String :=
  match civilFromDays (localDays tz ts) with
  | (y, m, d) =>
    (if y < 0 then "-" else "") ++ pad4 y.natAbs ++ "-" ++ pad2 m ++ "-" ++ pad2 d

/-- `strftime(%A)` weekday name of a day number (day 0 = Thursday). -/
def weekdayName (days : ℤ) : String :=
  (["Monday", "Tuesday", "Wednesday", "Thursday", "Friday", "Saturday",
    "Sunday"].getD ((days + 3).emod 7).toNat "Monday")

/-- Strict `YYYY-MM-DD` parsing (as `datetime.fromisoformat` /
`strptime(%Y-%m-%d)` on the strings this program produces);
`none` models the `ValueError` raised on malformed input. -/
def parseYMD (s : String) : Option (ℤ × ℕ × ℕ) :=
  match pySplit '-' s with
  | [ys, ms, ds] =>
    if ys.length = 4 ∧ ms.length = 2 ∧ ds.length = 2 then
      match pyToNat? ys, pyToNat? ms, pyToNat? ds with
      | some y, some m, some d =>
        if 1 ≤ m ∧ m ≤ 12 ∧ 1 ≤ d ∧ d ≤ daysInMonth y m then
          some ((y : ℤ), m, d)
        else none
      | _, _, _ => none
    else none
  | _ => none

/-- `datetime.strptime(date, %Y-%m-%d).strftime(%A)`. -/
def dayNameOfDateStr (s : String) : Option String :=
  (parseYMD s).map fun p => weekdayName (daysFromCivil p.1 p.2.1 p.2.2)

/-- `int(datetime.fromisoformat(s).timestamp())` for a plain date:
epoch seconds of local midnight of that date. -/
def parseDateToTs (tz : ℤ) (s : String) : Option ℤ :=
  (parseYMD s).map fun p => daysFromCivil p.1 p.2.1 p.2.2 * 86400 - tz

/-- `datetime.fromtimestamp(ts).strftime(%H:%M)` under offset `tz`. -/
def strftimeHM (tz ts : ℤ) : String :=
  let secs := ((ts + tz).emod 86400).toNat
  pad2 (secs / 3600) ++ ":" ++ pad2 (secs % 3600 / 60)

/-! ### Data model

`Option`-valued fields mirror JSON-object keys (`none` = absent).
The field names follow the JSON keys used by the Python code. -/

/-- A raw Visual Crossing alert object (keys read by `_get_vc_alerts`). -/
structure VCAlert where
  event : Option String
  description : Option String
  severity : Option String
  onset : Option String
  expires : Option String
  deriving Repr, DecidableEq

/-- The `currentConditions` object of a Visual Crossing response. -/
structure VCCurrent where
  temp : Option ℚ
  feelslike : Option ℚ
  humidity : Option ℚ
  pressure : Option ℚ
  windspeed : Option ℚ
  winddir : Option ℚ
  visibility : Option ℚ
  conditions : Option String
  icon : Option String
  sunrise : Option String
  sunset : Option String
  deriving Repr, DecidableEq

/-- `current = data.get(currentConditions, \x7b\x7d)` default. -/
def VCCurrent.empty : VCCurrent := ⟨none, none, none, none, none, none, none, none, none, none, none⟩

/-- One element of the `days` array of a Visual Crossing response. -/
structure VCDay where
  datetime : Option String
  temp : Option ℚ
  tempmin : Option ℚ
  tempmax : Option ℚ
  humidity : Option ℚ
  pressure : Option ℚ
  windspeed : Option ℚ
  winddir : Option ℚ
  precipprob : Option ℚ
  conditions : Option String
  icon : Option String
  deriving Repr, DecidableEq

/-- A parsed Visual Crossing timeline response body. -/
structure VCResponse where
  currentConditions : Option VCCurrent
  resolvedAddress : Option String
  days : Option (List VCDay)
  alerts : Option (List VCAlert)
  deriving Repr, DecidableEq

/-- The `main` sub-object of an OpenWeatherMap-shaped record. -/
structure MainD where
  temp : Option ℚ
  feels_like : Option ℚ
  humidity : Option ℚ
  pressure : Option ℚ
  temp_min : Option ℚ
  temp_max : Option ℚ
  deriving Repr, DecidableEq

/-- One element of the `weather` array. -/
structure WItemD where
  main : Option String
  description : Option String
  icon : Option String
  deriving Repr, DecidableEq

/-- The `wind` sub-object. -/
structure WindD where
  speed : Option ℚ
  deg : Option ℚ
  deriving Repr, DecidableEq

/-- The `sys` sub-object. -/
structure SysD where
  country : Option String
  sunrise : Option ℤ
  sunset : Option ℤ
  deriving Repr, DecidableEq

/-- An OpenWeatherMap-shaped current-weather record: both the raw
payload returned by the secondary provider and the normalized record
that `_get_vc_current_weather` constructs have this shape. -/
structure WDict where
  source : Option String
  name : Option String
  country : Option String
  main : Option MainD
  weather : Option (List WItemD)
  wind : Option WindD
  visibility : Option ℚ
  dt : Option ℤ
  sys : Option SysD
  alerts : Option (List VCAlert)
  deriving Repr, DecidableEq

/-- One element of a forecast `list` (sub-daily or daily sample). -/
structure FItem where
  dt : Option ℤ
  main : Option MainD
  weather : Option (List WItemD)
  wind : Option WindD
  pop : Option ℚ
  deriving Repr, DecidableEq

/-- The `city` sub-object of a forecast response. -/
structure CityD where
  name : Option String
  deriving Repr, DecidableEq

/-- A forecast response as consumed by `format_forecast_data`. -/
structure FDict where
  source : Option String
  city : Option CityD
  list : Option (List FItem)
  alerts : Option (List VCAlert)
  deriving Repr, DecidableEq

/-- One geocoding result object. -/
structure GeoItem where
  name : Option String
  country : Option String
  state : Option String
  lat : Option ℚ
  lon : Option ℚ
  deriving Repr, DecidableEq

/-- An alert record as produced by `_get_owm_alerts`/`_get_vc_alerts`
and consumed by `format_weather_alerts` (a plain dict, so fields stay
optional; the OpenWeatherMap-derived alerts carry no `end` key). -/
structure AlertRec where
  event : Option String
  description : Option String
  severity : Option String
  start : Option String
  «end» : Option String
  source : Option String
  deriving Repr, DecidableEq

/-- The ambient world of one service object: one oracle per distinct
outbound HTTP request shape (`none` = the request raised), plus the
wall clock (`now` = epoch seconds, `tz` = local UTC offset in
seconds, and the two `datetime.now()` string renderings used). -/
structure Env where
  /-- GET `timeline/city/today` with `unitGroup`, parsed body. -/
  vcCurrentFetch : String → String → Option VCResponse
  /-- GET `timeline/city/today/endDate` with `unitGroup`. -/
  vcForecastFetch : String → String → String → Option VCResponse
  /-- GET `timeline/city/today` with `include=alerts` only. -/
  vcAlertsFetch : String → Option VCResponse
  /-- GET OWM `/weather?q=city&units=`. -/
  owmCurrentFetch : String → String → Option WDict
  /-- GET OWM `/weather?lat=&lon=` (no units). -/
  owmCoordFetch : ℚ → ℚ → Option WDict
  /-- GET OWM geocoding `/direct?q=&limit=`. -/
  geoFetch : String → ℕ → Option (List GeoItem)
  now : ℤ
  tz : ℤ
  /-- `datetime.now().isoformat()`. -/
  nowIso : String
  /-- `datetime.now().strftime(%Y-%m-%d %H:%M:%S)`. -/
  nowDisplay : String

/-! ### WorkingWeatherService -/

/-- `unit_group = "metric" if units == "metric" else "us"`. -/
def unitGroupOf (units : String) : String :=
  if units = "metric" then "metric" else "us"

/-- `current.get(pressure, 0) * 33.8639 if current.get(pressure) else 0`
(the source's inches-of-mercury → hectopascal conversion; the guard is
Python truthiness, so an absent or zero pressure yields `0`). -/
def vcPressure (p : Option ℚ) : ℚ :=
  match p with
  | none => 0
  | some q => if q = 0 then 0 else q * (338639 / 10000)

/-- `_get_weather_icon_code`: Visual Crossing icon → OWM-style code. -/
def weatherIconCode (vcIcon : String) : String :=
  match vcIcon with
  | "clear-day" => "01d"
  | "clear-night" => "01n"
  | "partly-cloudy-day" => "02d"
  | "partly-cloudy-night" => "02n"
  | "cloudy" => "03d"
  | "fog" => "50d"
  | "wind" => "50d"
  | "rain" => "10d"
  | "sleet" => "13d"
  | "snow" => "13d"
  | "hail" => "13d"
  | _ => "01d"

/-- Parse `HH:MM:SS` as `strptime(%H:%M:%S)` would; `none` = raise. -/
def parseHMS (s : String) : Option ℕ :=
  match pySplit ':' s with
  | [hs, ms, ss] =>
    match pyToNat? hs, pyToNat? ms, pyToNat? ss with
    | some h, some m, some sec =>
      if h < 24 ∧ m < 60 ∧ sec < 60 then some (h * 3600 + m * 60 + sec) else none
    | _, _, _ => none
  | _ => none

/-- `_parse_time_to_timestamp`: combine a `HH:MM:SS` string with
today's date; any parse failure (or empty string) falls back to the
current timestamp. -/
def parse_time_to_timestamp (env : Env) (timeStr : String) : ℤ :=
  if timeStr ≠ "" then
    match parseHMS timeStr with
    | some secs => localMidnight env.tz env.now + secs
    | none => env.now
  else env.now

/-- `location.split(",")[0]`. -/
def locFirst (location : String) : String := (pySplit ',' location).headD ""

/-- `location.split(",")[-1].strip() if "," in location else ""`. -/
def locCountry (location : String) : String :=
  if strContains location "," then pyStrip ((pySplit ',' location).getLastD "") else ""

/-- `_get_vc_current_weather`: fetch the Visual Crossing timeline for
`city` and convert it to the standard (OWM-like) shape. -/
def get_vc_current_weather (env : Env) (city units : String) : Option WDict :=
  match env.vcCurrentFetch city (unitGroupOf units) with
  | none => none
  | some data =>
    let current := data.currentConditions.getD VCCurrent.empty
    let location := data.resolvedAddress.getD city
    some
      { source := some "visual_crossing"
        name := some (locFirst location)
        country := some (locCountry location)
        main := some
          { temp := some (current.temp.getD 0)
            feels_like := some (current.feelslike.getD 0)
            humidity := some (current.humidity.getD 0)
            pressure := some (vcPressure current.pressure)
            temp_min := some (current.temp.getD 0 - 2)
            temp_max := some (current.temp.getD 0 + 2) }
        weather := some
          [{ main := none
             description := some (current.conditions.getD "")
             icon := some (weatherIconCode (current.icon.getD "")) }]
        wind := some
          { speed := some (current.windspeed.getD 0)
            deg := some (current.winddir.getD 0) }
        visibility := some (current.visibility.getD 0 * 1000)
        dt := some env.now
        sys := some
          { country := some (locCountry location)
            sunrise := some (parse_time_to_timestamp env (current.sunrise.getD ""))
            sunset := some (parse_time_to_timestamp env (current.sunset.getD "")) }
        alerts := some (data.alerts.getD []) }

/-- `_get_owm_current_weather`: fetch the raw OpenWeatherMap payload
and tag it with `source = "openweathermap"`. -/
def get_owm_current_weather (env : Env) (city units : String) : Option WDict :=
  match env.owmCurrentFetch city units with
  | none => none
  | some data => some { data with source := some "openweathermap" }

/-- `get_current_weather`: try Visual Crossing first; fall back to
OpenWeatherMap when it yields nothing (the constructed dict is
non-empty, hence truthy, so the fallback runs exactly when the
primary helper returned `None`). -/
def get_current_weather (env : Env) (city units : String) : Option WDict :=
  match get_vc_current_weather env city units with
  | some w => some w
  | none => get_owm_current_weather env city units

/-- Build one standard-format forecast item from a Visual Crossing
`days` element (the loop body of `_get_vc_forecast`); `day[datetime]`
is indexed directly and then parsed, so an absent or malformed date
raises, which aborts the whole forecast. -/
def vcForecastItem (env : Env) (day : VCDay) : Option FItem :=
  match day.datetime with
  | none => none
  | some ds =>
    match parseDateToTs env.tz ds with
    | none => none
    | some t =>
      some
        { dt := some t
          main := some
            { temp := some (day.temp.getD 0)
              feels_like := none
              humidity := some (day.humidity.getD 0)
              pressure := some (vcPressure day.pressure)
              temp_min := some (day.tempmin.getD 0)
              temp_max := some (day.tempmax.getD 0) }
          weather := some
            [{ main := none
               description := some (day.conditions.getD "")
               icon := some (weatherIconCode (day.icon.getD "")) }]
          wind := some
            { speed := some (day.windspeed.getD 0)
              deg := some (day.winddir.getD 0) }
          pop := some (day.precipprob.getD 0 / 100) }

/-- `_get_vc_forecast`: fetch the multi-day timeline and convert every
day; any exception while converting yields `None`. -/
def get_vc_forecast (env : Env) (city : String) (days : ℕ) (units : String) :
    Option FDict :=
  let endDate := dateStrOf env.tz (env.now + ((days : ℤ) - 1) * 86400)
  match env.vcForecastFetch city endDate (unitGroupOf units) with
  | none => none
  | some data =>
    match optMapM (vcForecastItem env) (data.days.getD []) with
    | none => none
    | some fl =>
      some
        { source := some "visual_crossing"
          city := some { name := some city }
          list := some fl
          alerts := some (data.alerts.getD []) }

/-- `_get_city_coordinates`: first geocoding hit's `lat`/`lon`; an
empty result list or a missing key (KeyError, caught) gives `None`. -/
def get_city_coordinates (env : Env) (city : String) : Option (ℚ × ℚ) :=
  match env.geoFetch city 1 with
  | none => none
  | some [] => none
  | some (g :: _) =>
    match g.lat, g.lon with
    | some la, some lo => some (la, lo)
    | _, _ => none

/-- `_get_owm_alerts`: derive alerts from the secondary provider's
current conditions at a coordinate; any request error or missing key
contributes no alerts.  The wind check sits inside the
`if data.get(weather):` block, so it is skipped when the `weather`
array is absent or empty. -/
def get_owm_alerts (env : Env) (lat lon : ℚ) : List AlertRec :=
  match env.owmCoordFetch lat lon with
  | none => []
  | some data =>
    match data.weather with
    | some (w0 :: _) =>
      match w0.main, w0.description with
      | some mw, some desc =>
        let mainWeather := pyLower mw
        let severeAlerts :=
          if strContains mainWeather "thunderstorm" || strContains mainWeather "tornado" then
            [{ event := some "Severe Thunderstorm Warning"
               description := some ("Severe weather detected: " ++ desc)
               severity := some "Severe"
               start := some env.nowIso
               «end» := none
               source := some "OpenWeatherMap Analysis" : AlertRec }]
          else []
        let windSpeed := (data.wind.bind WindD.speed).getD 0
        let windAlerts :=
          if windSpeed > 15 then
            [{ event := some "High Wind Warning"
               description := some ("Strong winds detected: " ++ toString windSpeed ++ " m/s")
               severity := some "Moderate"
               start := some env.nowIso
               «end» := none
               source := some "OpenWeatherMap Analysis" : AlertRec }]
          else []
        severeAlerts ++ windAlerts
      | _, _ => []
    | _ => []

/-- The loop body of `_get_vc_alerts`. -/
def vcAlertRec (env : Env) (a : VCAlert) : AlertRec :=
  { event := some (a.event.getD "Weather Alert")
    description := some (a.description.getD "Weather alert in effect")
    severity := some (a.severity.getD "Unknown")
    start := some (a.onset.getD env.nowIso)
    «end» := some (a.expires.getD "")
    source := some "Visual Crossing" }

/-- `_get_vc_alerts`: native alerts of the primary provider; a request
error contributes no alerts. -/
def get_vc_alerts (env : Env) (city : String) : List AlertRec :=
  match env.vcAlertsFetch city with
  | none => []
  | some data => (data.alerts.getD []).map (vcAlertRec env)

/-- `get_weather_alerts`: geocode, then concatenate the derived
OpenWeatherMap alerts and the native Visual Crossing alerts.  A
geocoding failure returns the (empty) accumulator immediately. -/
def get_weather_alerts (env : Env) (city : String) : List AlertRec :=
  match get_city_coordinates env city with
  | none => []
  | some (lat, lon) => get_owm_alerts env lat lon ++ get_vc_alerts env city

/-! ### WeatherDataProcessor -/

/-- The display record built by `format_current_weather`.  Field types
follow what the Python expressions produce: `round(x)` is an integer,
`round(x, 1)` stays fractional, and `humidity`/`wind_direction` are
passed through unrounded. -/
structure FormattedCurrent where
  city : String
  country : String
  temperature : ℤ
  feels_like : ℤ
  description : String
  humidity : ℚ
  pressure : ℤ
  wind_speed : ℚ
  wind_direction : ℚ
  visibility : ℚ
  sunrise : String
  sunset : String
  timestamp : String
  source : String
  deriving Repr, DecidableEq

/-- `format_current_weather`: a falsy input gives `\x7b\x7d` (here
`none`); a present-but-empty `weather` array raises IndexError inside
the `try`, which also gives `\x7b\x7d`; otherwise every field is read
with a `.get` default. -/
def format_current_weather (tz : ℤ) (nowDisplay : String) (weather_data : Option WDict) :
    Option FormattedCurrent :=
  match weather_data with
  | none => none
  | some w =>
    match w.weather with
    | some [] => none
    | _ =>
      let w0 : WItemD :=
        match w.weather with
        | some (x :: _) => x
        | _ => ⟨none, none, none⟩
      some
        { city := w.name.getD ""
          country := (w.sys.bind SysD.country).getD ""
          temperature := pyRound ((w.main.bind MainD.temp).getD 0)
          feels_like := pyRound ((w.main.bind MainD.feels_like).getD 0)
          description := w0.description.getD ""
          humidity := (w.main.bind MainD.humidity).getD 0
          pressure := pyRound ((w.main.bind MainD.pressure).getD 0)
          wind_speed := pyRound1 ((w.wind.bind WindD.speed).getD 0)
          wind_direction := (w.wind.bind WindD.deg).getD 0
          visibility := pyRound1 (w.visibility.getD 0 / 1000)
          sunrise := strftimeHM tz ((w.sys.bind SysD.sunrise).getD 0)
          sunset := strftimeHM tz ((w.sys.bind SysD.sunset).getD 0)
          timestamp := nowDisplay
          source := w.source.getD "unknown" }

/-- One display day built by `format_forecast_data`.  `humidity` is an
integerised mean in the grouped branch but a raw payload value in the
Visual Crossing branch, hence `ℚ`. -/
structure DayOut where
  date : String
  day_name : String
  min_temp : ℤ
  max_temp : ℤ
  description : String
  humidity : ℚ
  wind_speed : ℚ
  pressure : ℤ
  pop : ℤ
  deriving Repr, DecidableEq

/-- The Visual Crossing branch loop body of `format_forecast_data`:
`dt`, `main`, the temperatures, `description`, `humidity`,
`wind[speed]` and `pressure` are indexed directly (an absent key
raises, aborting the whole format); only `pop` has a default. -/
def vcFormatItem (tz : ℤ) (item : FItem) : Option DayOut :=
  match item.dt, item.main, item.weather, item.wind with
  | some dt, some m, some (w0 :: _), some wind =>
    match m.temp_min, m.temp_max, w0.description, m.humidity, wind.speed, m.pressure with
    | some tmin, some tmax, some desc, some hum, some spd, some prs =>
      some
        { date := dateStrOf tz dt
          day_name := weekdayName (localDays tz dt)
          min_temp := pyRound tmin
          max_temp := pyRound tmax
          description := desc
          humidity := hum
          wind_speed := pyRound1 spd
          pressure := pyRound prs
          pop := pyRound (item.pop.getD 0 * 100) }
    | _, _, _, _, _, _ => none
  | _, _, _, _ => none

def extractTemp (i : FItem) : Option ℚ := i.main.bind MainD.temp

def extractDesc (i : FItem) : Option String :=
  (i.weather.bind List.head?).bind WItemD.description

def extractHumidity (i : FItem) : Option ℚ := i.main.bind MainD.humidity

def extractSpeed (i : FItem) : Option ℚ := i.wind.bind WindD.speed

def extractPressure (i : FItem) : Option ℚ := i.main.bind MainD.pressure

/-- The grouped (OpenWeatherMap) branch loop body of
`format_forecast_data` for one date's samples: min/max of the
temperatures, the most frequent description (Python
`max(set(descriptions), key=descriptions.count)`, whose tie-break
follows the set's iteration order, supplied here by the oracle
`ordOf` applied to the set's insertion history), and rounded
arithmetic means of the remaining fields.  Any missing key raises
(`none`), as does `min`/`max`/`max(set(...))` on an empty group or an
unparsable date string. -/
def aggregateDay (ordOf : List String → List String) (date : String)
    (day_items : List FItem) : Option DayOut :=
  match optMapM extractTemp day_items, optMapM extractDesc day_items,
      optMapM extractHumidity day_items, optMapM extractSpeed day_items,
      optMapM extractPressure day_items, dayNameOfDateStr date with
  | some (t :: ts), some descs, some hums, some spds, some prss, some dn =>
    let n : ℚ := day_items.length
    some
      { date := date
        day_name := dn
        min_temp := pyRound (ts.foldl min t)
        max_temp := pyRound (ts.foldl max t)
        description := (pyMaxL (fun d => descs.count d) (ordOf (pySetList descs))).getD ""
        humidity := ((pyRound (hums.sum / n) : ℤ) : ℚ)
        wind_speed := pyRound1 (spds.sum / n)
        pressure := pyRound (prss.sum / n)
        pop := pyRound ((day_items.map (fun i => i.pop.getD 0)).sum / n * 100) }
  | _, _, _, _, _, _ => none

/-- Append an item to its date's bucket (creating the bucket at the
end on first sight), preserving dict insertion order. -/
def addToBucket : List (String × List FItem) → String → FItem → List (String × List FItem)
  | [], d, i => [(d, [i])]
  | (d', is) :: rest, d, i =>
    if d' = d then (d', is ++ [i]) :: rest else (d', is) :: addToBucket rest d i

/-- The `daily_data` grouping loop of `format_forecast_data`:
`item[dt]` is indexed directly, so a missing timestamp raises and
aborts the whole format. -/
def groupByDate (tz : ℤ) (l : List FItem) : Option (List (String × List FItem)) :=
  match optMapM (fun i => i.dt.map (fun d => (dateStrOf tz d, i))) l with
  | none => none
  | some keyed => some (keyed.foldl (fun acc p => addToBucket acc p.1 p.2) [])

/-- `format_forecast_data`: falsy input gives `[]`; the Visual
Crossing branch formats the first `days` already-daily items; the
other branch groups sub-daily samples by local calendar date and
aggregates the first `days` groups.  Any exception inside the `try`
discards everything and returns `[]`. -/
def format_forecast_data (tz : ℤ) (ordOf : List String → List String)
    (days : ℕ) : Option FDict → List DayOut
  | none => []
  | some fd =>
    if fd.source = some "visual_crossing" then
      match optMapM (vcFormatItem tz) ((fd.list.getD []).take days) with
      | some l => l
      | none => []
    else
      match groupByDate tz (fd.list.getD []) with
      | none => []
      | some daily =>
        match optMapM (fun p => aggregateDay ordOf p.1 p.2) (daily.take days) with
        | some l => l
        | none => []

/-- A display alert built by `format_weather_alerts`. -/
structure FormattedAlert where
  title : String
  description : String
  severity : String
  start_time : String
  end_time : String
  source : String
  icon : String
  deriving Repr, DecidableEq

/-- `_get_alert_icon`: case-insensitive severity keyword match (the
icon strings are copied byte-for-byte from the source file). -/
def get_alert_icon (severity : String) : String :=
  let severityLower := pyLower severity
  if strContains severityLower "severe" || strContains severityLower "extreme" then
    "ğŸš¨"
  else if strContains severityLower "moderate" || strContains severityLower "minor" then
    "âš ï¸"
  else
    "âš¡"

/-- `format_weather_alerts`: every input alert yields one display
alert, with `.get` defaults for each field. -/
def format_weather_alerts (alerts : List AlertRec) : List FormattedAlert :=
  alerts.map fun a =>
    { title := a.event.getD "Weather Alert"
      description := a.description.getD "Alert in effect"
      severity := a.severity.getD "Unknown"
      start_time := a.start.getD ""
      end_time := a.«end».getD ""
      source := a.source.getD "Weather Service"
      icon := get_alert_icon (a.severity.getD "") }

/-- The ordered icon table of `get_weather_icon` (Python dicts iterate
in insertion order; icon strings copied byte-for-byte from the
source file). -/
def iconTable : List (String × String) :=
  [("clear", "â˜€ï¸"),
   ("sunny", "â˜€ï¸"),
   ("partly cloudy", "â›…"),
   ("few clouds", "ğŸŒ¤ï¸"),
   ("scattered clouds", "â›…"),
   ("broken clouds", "â˜ï¸"),
   ("overcast", "â˜ï¸"),
   ("cloudy", "â˜ï¸"),
   ("light rain", "ğŸŒ¦ï¸"),
   ("moderate rain", "ğŸŒ§ï¸"),
   ("heavy rain", "â›ˆï¸"),
   ("rain", "ğŸŒ§ï¸"),
   ("thunderstorm", "â›ˆï¸"),
   ("snow", "â„ï¸"),
   ("sleet", "ğŸŒ¨ï¸"),
   ("mist", "ğŸŒ«ï¸"),
   ("fog", "ğŸŒ«ï¸"),
   ("haze", "ğŸŒ«ï¸"),
   ("drizzle", "ğŸŒ¦ï¸"),
   ("shower", "ğŸŒ¦ï¸")]

/-- The default icon returned when no keyword matches. -/
def defaultIcon : String := "ğŸŒ¤ï¸"

/-- `get_weather_icon`: first table keyword occurring in the
lower-cased description wins; otherwise the default icon. -/
def get_weather_icon (description : String) : String :=
  let descriptionLower := pyLower description
  match iconTable.find? (fun kv => strContains descriptionLower kv.1) with
  | some kv => kv.2
  | none => defaultIcon

/-- The aggregation rule in the spec's words, for comparison with the
code: the most frequent description string, ties broken by
first-encountered order (the set's insertion history IS
first-encountered order, and Python `max` keeps the first maximum). -/
def specFirstSeenMode (descs : List String) : Option String :=
  pyMaxL (fun d => descs.count d) (pySetList descs)

/-! ### Concrete fixtures used by witnesses and counterexamples -/

/-- An OpenWeatherMap current-weather payload reporting 15 degrees. -/
def fixOwm15 : WDict where
  source := none
  name := some "London"
  country := none
  main := some { temp := some 15, feels_like := some 14, humidity := some 70,
                 pressure := some 1012, temp_min := none, temp_max := none }
  weather := some [{ main := some "Rain", description := some "light rain", icon := none }]
  wind := some { speed := some 3, deg := some 90 }
  visibility := some 10000
  dt := some 0
  sys := none
  alerts := none

/-- World where the primary provider's request raises (simulated 500)
and the secondary returns `fixOwm15`. -/
def fixEnvC1 : Env where
  vcCurrentFetch := fun _ _ => none
  vcForecastFetch := fun _ _ _ => none
  vcAlertsFetch := fun _ => none
  owmCurrentFetch := fun _ _ => some fixOwm15
  owmCoordFetch := fun _ _ => none
  geoFetch := fun _ _ => none
  now := 0
  tz := 0
  nowIso := "1970-01-01T00:00:00"
  nowDisplay := "1970-01-01 00:00:00"

/-- A Visual Crossing response with 20 degrees and 30 inHg pressure. -/
def fixVCResp : VCResponse where
  currentConditions := some
    { temp := some 20, feelslike := some 19, humidity := some 60,
      pressure := some 30, windspeed := some 5, winddir := some 180,
      visibility := some 10, conditions := some "Partially cloudy",
      icon := some "partly-cloudy-day", sunrise := some "06:30:00",
      sunset := some "18:30:00" }
  resolvedAddress := some "London, England, United Kingdom"
  days := none
  alerts := some []

/-- World where the primary provider answers with `fixVCResp`. -/
def fixEnvVC : Env where
  vcCurrentFetch := fun _ _ => some fixVCResp
  vcForecastFetch := fun _ _ _ => none
  vcAlertsFetch := fun _ => none
  owmCurrentFetch := fun _ _ => none
  owmCoordFetch := fun _ _ => none
  geoFetch := fun _ _ => none
  now := 0
  tz := 0
  nowIso := "1970-01-01T00:00:00"
  nowDisplay := "1970-01-01 00:00:00"

/-- A Visual-Crossing-tagged forecast payload whose single day reports
`temp_min = 20 > temp_max = 10`. -/
def fixFdBad : FDict where
  source := some "visual_crossing"
  city := none
  list := some
    [{ dt := some 0
       main := some { temp := some 15, feels_like := none, humidity := some 50,
                      pressure := some 1000, temp_min := some 20, temp_max := some 10 }
       weather := some [{ main := none, description := some "x", icon := none }]
       wind := some { speed := some 1, deg := none }
       pop := some 0 }]
  alerts := none

/-- A sub-daily sample at midnight with temperature `t` and
description `d` (humidity 50, wind 3, pressure 1000). -/
def fixSample (t : ℚ) (d : String) : FItem where
  dt := some 0
  main := some { temp := some t, feels_like := none, humidity := some 50,
                 pressure := some 1000, temp_min := none, temp_max := none }
  weather := some [{ main := none, description := some d, icon := none }]
  wind := some { speed := some 3, deg := none }
  pop := none

/-- An OpenWeatherMap-tagged forecast payload: eight three-hourly
samples of one calendar date with temperatures 10,12,14,16,15,13,11,9. -/
def fixFdOwm8 : FDict where
  source := some "openweathermap"
  city := none
  list := some
    [fixSample 10 "a", fixSample 12 "a", fixSample 14 "a", fixSample 16 "a",
     fixSample 15 "b", fixSample 13 "b", fixSample 11 "b", fixSample 9 "b"]
  alerts := none

/-- A current-weather payload with fractional humidity 5.5. -/
def fixHumHalf : WDict where
  source := none
  name := none
  country := none
  main := some { temp := some 1, feels_like := some 1, humidity := some (11 / 2),
                 pressure := some 1000, temp_min := none, temp_max := none }
  weather := none
  wind := none
  visibility := none
  dt := none
  sys := none
  alerts := none

/-- A current-weather payload with every key absent. -/
def fixWEmpty : WDict where
  source := none
  name := none
  country := none
  main := none
  weather := none
  wind := none
  visibility := none
  dt := none
  sys := none
  alerts := none

/-- An alert object with every key absent. -/
def fixAlertNone : AlertRec where
  event := none
  description := none
  severity := none
  start := none
  «end» := none
  source := none

/-- A raw Visual Crossing alert. -/
def fixVCAlert : VCAlert where
  event := some "Cyclone Warning"
  description := some "Severe cyclone approaching"
  severity := some "Severe"
  onset := some "1970-01-01T00:00:00"
  expires := some "1970-01-02T00:00:00"

/-- World where geocoding raises but the primary provider has one
native alert. -/
def fixEnvGeoFail : Env where
  vcCurrentFetch := fun _ _ => none
  vcForecastFetch := fun _ _ _ => none
  vcAlertsFetch := fun _ => some
    { currentConditions := none, resolvedAddress := none, days := none,
      alerts := some [fixVCAlert] }
  owmCurrentFetch := fun _ _ => none
  owmCoordFetch := fun _ _ => none
  geoFetch := fun _ _ => none
  now := 0
  tz := 0
  nowIso := "1970-01-01T00:00:00"
  nowDisplay := "1970-01-01 00:00:00"

/-- World where geocoding succeeds but both providers' alert-related
requests raise. -/
def fixEnvGeoOk : Env where
  vcCurrentFetch := fun _ _ => none
  vcForecastFetch := fun _ _ _ => none
  vcAlertsFetch := fun _ => none
  owmCurrentFetch := fun _ _ => none
  owmCoordFetch := fun _ _ => none
  geoFetch := fun _ _ => some
    [{ name := some "London", country := some "GB", state := none,
       lat := some (515074 / 10000), lon := some (-1278 / 10000) }]
  now := 0
  tz := 0
  nowIso := "1970-01-01T00:00:00"
  nowDisplay := "1970-01-01 00:00:00"

/-- A forecast item that lacks the `main` object entirely. -/
def fixItemNoMain : FItem where
  dt := some 0
  main := none
  weather := some [{ main := none, description := some "x", icon := none }]
  wind := some { speed := some 1, deg := none }
  pop := some 0

/-- A Visual-Crossing-tagged forecast payload whose single item lacks
the `main` object entirely. -/
def fixFdMissing : FDict where
  source := some "visual_crossing"
  city := none
  list := some [fixItemNoMain]
  alerts := none

/-! ### Helper lemmas -/

theorem optMapM_length {f : α → Option β} {l : List α} {l' : List β}
    (h : optMapM f l = some l') : l'.length = l.length := by
  induction l generalizing l' with
  | nil => simp only [optMapM] at h; cases h; rfl
  | cons x xs ih =>
    simp only [optMapM] at h
    cases hx : f x with
    | none => rw [hx] at h; cases h
    | some y =>
      rw [hx] at h
      cases hxs : optMapM f xs with
      | none => rw [hxs] at h; cases h
      | some ys =>
        rw [hxs] at h
        cases h
        simp [ih hxs]

theorem optMapM_mem {f : α → Option β} {l : List α} {l' : List β} {y : β}
    (h : optMapM f l = some l') (hy : y ∈ l') : ∃ x ∈ l, f x = some y := by
  induction l generalizing l' with
  | nil => simp only [optMapM] at h; cases h; cases hy
  | cons x xs ih =>
    simp only [optMapM] at h
    cases hx : f x with
    | none => rw [hx] at h; cases h
    | some y' =>
      rw [hx] at h
      cases hxs : optMapM f xs with
      | none => rw [hxs] at h; cases h
      | some ys =>
        rw [hxs] at h
        cases h
        rcases List.mem_cons.mp hy with h1 | h1
        · exact ⟨x, List.mem_cons_self x xs, h1 ▸ hx⟩
        · rcases ih hxs h1 with ⟨x', hx', hfx'⟩
          exact ⟨x', List.mem_cons_of_mem x hx', hfx'⟩

theorem optMapM_append (f : α → Option β) (l₁ l₂ : List α) :
    optMapM f (l₁ ++ l₂) =
      match optMapM f l₁, optMapM f l₂ with
      | some a, some b => some (a ++ b)
      | _, _ => none := by
  induction l₁ with
  | nil =>
    simp only [List.nil_append, optMapM]
    cases optMapM f l₂ <;> rfl
  | cons x xs ih =>
    simp only [List.cons_append, optMapM, List.append_eq, ih]
    cases f x <;> cases optMapM f xs <;> cases optMapM f l₂ <;> rfl

theorem optMapM_eq_none {f : α → Option β} {l : List α} {x : α}
    (hx : x ∈ l) (hf : f x = none) : optMapM f l = none := by
  induction l with
  | nil => cases hx
  | cons y ys ih =>
    simp only [optMapM]
    rcases List.mem_cons.mp hx with h1 | h1
    · rw [← h1, hf]
    · rw [ih h1]; cases f y <;> rfl

theorem pyMaxFold_mem (key : α → ℕ) (c : α) (l : List α) :
    pyMaxFold key c l = c ∨ pyMaxFold key c l ∈ l := by
  induction l generalizing c with
  | nil => left; rfl
  | cons x xs ih =>
    simp only [pyMaxFold]
    by_cases hx : key x > key c
    · simp only [if_pos hx]
      rcases ih x with h | h
      · right; exact List.mem_cons.mpr (Or.inl h)
      · right; exact List.mem_cons_of_mem x h
    · simp only [if_neg hx]
      rcases ih c with h | h
      · left; exact h
      · right; exact List.mem_cons_of_mem x h

theorem pyMaxFold_key_le_self (key : α → ℕ) (c : α) (l : List α) :
    key c ≤ key (pyMaxFold key c l) := by
  induction l generalizing c with
  | nil => exact le_refl _
  | cons x xs ih =>
    simp only [pyMaxFold]
    by_cases hx : key x > key c
    · simp only [if_pos hx]
      exact le_trans (le_of_lt hx) (ih x)
    · simp only [if_neg hx]
      exact ih c

theorem pyMaxFold_key_le_mem {key : α → ℕ} {x : α} {l : List α} (c : α)
    (hx : x ∈ l) : key x ≤ key (pyMaxFold key c l) := by
  induction l generalizing c with
  | nil => cases hx
  | cons y ys ih =>
    simp only [pyMaxFold]
    rcases List.mem_cons.mp hx with h1 | h1
    · subst h1
      by_cases hy : key x > key c
      · simp only [if_pos hy]
        exact pyMaxFold_key_le_self key x ys
      · simp only [if_neg hy]
        exact le_trans (Nat.le_of_not_lt hy) (pyMaxFold_key_le_self key c ys)
    · by_cases hy : key y > key c
      · simp only [if_pos hy]; exact ih y h1
      · simp only [if_neg hy]; exact ih c h1

theorem pyMaxL_spec {key : α → ℕ} {l : List α} {r : α}
    (h : pyMaxL key l = some r) : r ∈ l ∧ ∀ x ∈ l, key x ≤ key r := by
  cases l with
  | nil => cases h
  | cons x xs =>
    simp only [pyMaxL] at h
    cases h
    constructor
    · rcases pyMaxFold_mem key x xs with h1 | h1
      · exact List.mem_cons.mpr (Or.inl h1)
      · exact List.mem_cons_of_mem x h1
    · intro y hy
      rcases List.mem_cons.mp hy with h1 | h1
      · exact h1 ▸ pyMaxFold_key_le_self key x xs
      · exact pyMaxFold_key_le_mem x h1

theorem pyMaxFold_two_mul (key : α → ℕ) (c : α) (l : List α) :
    pyMaxFold (fun x => 2 * key x) c l = pyMaxFold key c l := by
  induction l generalizing c with
  | nil => rfl
  | cons x xs ih =>
    simp only [pyMaxFold]
    by_cases h : key x > key c
    · rw [if_pos h, if_pos (by omega : 2 * key x > 2 * key c), ih]
    · rw [if_neg h, if_neg (by omega : ¬2 * key x > 2 * key c), ih]

theorem pyMaxL_two_mul (key : α → ℕ) (l : List α) :
    pyMaxL (fun x => 2 * key x) l = pyMaxL key l := by
  cases l with
  | nil => rfl
  | cons x xs => simp only [pyMaxL, pyMaxFold_two_mul]

theorem mem_foldl_pySetInsert (l : List String) (acc : List String) (x : String) :
    x ∈ l.foldl pySetInsert acc ↔ x ∈ acc ∨ x ∈ l := by
  induction l generalizing acc with
  | nil => simp
  | cons y ys ih =>
    simp only [List.foldl_cons, ih, pySetInsert]
    by_cases hy : y ∈ acc
    · simp only [if_pos hy]
      constructor
      · rintro (h | h)
        · exact Or.inl h
        · exact Or.inr (List.mem_cons_of_mem y h)
      · rintro (h | h)
        · exact Or.inl h
        · rcases List.mem_cons.mp h with h1 | h1
          · exact Or.inl (h1 ▸ hy)
          · exact Or.inr h1
    · simp only [if_neg hy, List.mem_append, List.mem_singleton]
      constructor
      · rintro ((h | h) | h)
        · exact Or.inl h
        · exact Or.inr (List.mem_cons.mpr (Or.inl h))
        · exact Or.inr (List.mem_cons_of_mem y h)
      · rintro (h | h)
        · exact Or.inl (Or.inl h)
        · rcases List.mem_cons.mp h with h1 | h1
          · exact Or.inl (Or.inr h1)
          · exact Or.inr h1

theorem mem_pySetList {l : List String} {x : String} : x ∈ pySetList l ↔ x ∈ l := by
  unfold pySetList
  rw [mem_foldl_pySetInsert]
  simp

theorem foldl_pySetInsert_subset {l acc : List String}
    (h : ∀ x ∈ l, x ∈ acc) : l.foldl pySetInsert acc = acc := by
  induction l generalizing acc with
  | nil => rfl
  | cons y ys ih =>
    simp only [List.foldl_cons, pySetInsert, if_pos (h y (List.mem_cons_self y ys))]
    exact ih fun x hx => h x (List.mem_cons_of_mem y hx)

theorem pySetList_append_self (l : List String) : pySetList (l ++ l) = pySetList l := by
  unfold pySetList
  rw [List.foldl_append]
  exact foldl_pySetInsert_subset fun x hx => (mem_foldl_pySetInsert l [] x).mpr (Or.inr hx)

theorem foldl_min_le_init [LinearOrder α] (l : List α) (a : α) :
    l.foldl min a ≤ a := by
  induction l generalizing a with
  | nil => exact le_refl a
  | cons x xs ih =>
    exact le_trans (ih (min a x)) (min_le_left a x)

theorem foldl_min_le_mem [LinearOrder α] {l : List α} {x : α} (a : α)
    (hx : x ∈ l) : l.foldl min a ≤ x := by
  induction l generalizing a with
  | nil => cases hx
  | cons y ys ih =>
    rcases List.mem_cons.mp hx with h1 | h1
    · subst h1
      exact le_trans (foldl_min_le_init ys (min a x)) (min_le_right a x)
    · exact ih (min a y) h1

theorem foldl_min_eq_of_le [LinearOrder α] {l : List α} {a : α}
    (h : ∀ x ∈ l, a ≤ x) : l.foldl min a = a := by
  induction l with
  | nil => rfl
  | cons y ys ih =>
    simp only [List.foldl_cons, min_eq_left (h y (List.mem_cons_self y ys))]
    exact ih fun x hx => h x (List.mem_cons_of_mem y hx)

theorem init_le_foldl_max [LinearOrder α] (l : List α) (a : α) :
    a ≤ l.foldl max a := by
  induction l generalizing a with
  | nil => exact le_refl a
  | cons x xs ih =>
    exact le_trans (le_max_left a x) (ih (max a x))

theorem mem_le_foldl_max [LinearOrder α] {l : List α} {x : α} (a : α)
    (hx : x ∈ l) : x ≤ l.foldl max a := by
  induction l generalizing a with
  | nil => cases hx
  | cons y ys ih =>
    rcases List.mem_cons.mp hx with h1 | h1
    · subst h1
      exact le_trans (le_max_right a x) (init_le_foldl_max ys (max a x))
    · exact ih (max a y) h1

theorem foldl_max_eq_of_le [LinearOrder α] {l : List α} {a : α}
    (h : ∀ x ∈ l, x ≤ a) : l.foldl max a = a := by
  induction l with
  | nil => rfl
  | cons y ys ih =>
    simp only [List.foldl_cons, max_eq_left (h y (List.mem_cons_self y ys))]
    exact ih fun x hx => h x (List.mem_cons_of_mem y hx)

theorem foldl_min_le_foldl_max [LinearOrder α] {a b : α} (l : List α)
    (h : a ≤ b) : l.foldl min a ≤ l.foldl max b := by
  induction l generalizing a b with
  | nil => exact h
  | cons x xs ih =>
    exact ih (le_trans (min_le_left a x) (le_trans h (le_max_left b x)))

theorem foldl_min_append_self [LinearOrder α] (t : α) (ts : List α) :
    (ts ++ t :: ts).foldl min t = ts.foldl min t := by
  rw [List.foldl_append, List.foldl_cons,
    min_eq_left (foldl_min_le_init ts t)]
  exact foldl_min_eq_of_le fun x hx => foldl_min_le_mem t hx

theorem foldl_max_append_self [LinearOrder α] (t : α) (ts : List α) :
    (ts ++ t :: ts).foldl max t = ts.foldl max t := by
  rw [List.foldl_append, List.foldl_cons,
    max_eq_left (init_le_foldl_max ts t)]
  exact foldl_max_eq_of_le fun x hx => mem_le_foldl_max t hx

theorem pyRound_bounds (q : ℚ) : ⌊q⌋ ≤ pyRound q ∧ pyRound q ≤ ⌊q⌋ + 1 := by
  unfold pyRound
  split_ifs <;> omega

theorem pyRound_mono {p q : ℚ} (h : p ≤ q) : pyRound p ≤ pyRound q := by
  have hf : ⌊p⌋ ≤ ⌊q⌋ := Int.floor_le_floor h
  rcases lt_or_eq_of_le hf with hlt | heq
  · have h1 := (pyRound_bounds p).2
    have h2 := (pyRound_bounds q).1
    omega
  · have hpq : p - (⌊p⌋ : ℚ) ≤ q - (⌊q⌋ : ℚ) := by
      rw [← heq]; linarith
    unfold pyRound
    rw [← heq]
    split_ifs <;> first | omega | (exfalso; linarith)

theorem double_div (a b : ℚ) : (a + a) / (b + b) = a / b := by
  rw [← two_mul, ← two_mul]
  exact mul_div_mul_left a b two_ne_zero

theorem sum_div_len_double (s : List ℚ) (l : List α) :
    (s ++ s).sum / (((l ++ l).length : ℕ) : ℚ) = s.sum / ((l.length : ℕ) : ℚ) := by
  rw [List.sum_append, List.length_append]
  push_cast
  exact double_div _ _

theorem find?_decomp {p : α → Bool} {l : List α} {a : α}
    (h : List.find? p l = some a) :
    ∃ pre post, l = pre ++ a :: post ∧ p a = true ∧ ∀ x ∈ pre, p x = false := by
  induction l with
  | nil => cases h
  | cons y ys ih =>
    by_cases hy : p y = true
    · rw [List.find?_cons_of_pos _ hy] at h
      cases h
      exact ⟨[], ys, rfl, hy, by intro x hx; cases hx⟩
    · rw [List.find?_cons_of_neg _ (by simpa using hy)] at h
      rcases ih h with ⟨pre, post, hl, hpa, hpre⟩
      refine ⟨y :: pre, post, by rw [hl]; rfl, hpa, ?_⟩
      intro x hx
      rcases List.mem_cons.mp hx with h1 | h1
      · subst h1; simpa using hy
      · exact hpre x h1

theorem vcFormatItem_inv {tz : ℤ} {i : FItem} {day : DayOut}
    (h : vcFormatItem tz i = some day) :
    ∃ dt m w0 ws wind tmin tmax desc hum spd prs,
      i.dt = some dt ∧ i.main = some m ∧ i.weather = some (w0 :: ws) ∧ i.wind = some wind ∧
      m.temp_min = some tmin ∧ m.temp_max = some tmax ∧ w0.description = some desc ∧
      m.humidity = some hum ∧ wind.speed = some spd ∧ m.pressure = some prs ∧
      day.min_temp = pyRound tmin ∧ day.max_temp = pyRound tmax := by
  unfold vcFormatItem at h
  split at h
  · rename_i dt m w0 ws wind h1 h2 h3 h4
    split at h
    · rename_i tmin tmax desc hum spd prs h5 h6 h7 h8 h9 h10
      injection h with h'
      subst h'
      exact ⟨dt, m, w0, ws, wind, tmin, tmax, desc, hum, spd, prs,
        h1, h2, h3, h4, h5, h6, h7, h8, h9, h10, rfl, rfl⟩
    · exact Option.noConfusion h
  · exact Option.noConfusion h

theorem aggregateDay_inv {ordOf : List String → List String} {date : String}
    {items : List FItem} {day : DayOut}
    (h : aggregateDay ordOf date items = some day) :
    ∃ t ts descs hums spds prss dn,
      optMapM extractTemp items = some (t :: ts) ∧
      optMapM extractDesc items = some descs ∧
      optMapM extractHumidity items = some hums ∧
      optMapM extractSpeed items = some spds ∧
      optMapM extractPressure items = some prss ∧
      dayNameOfDateStr date = some dn ∧
      day.min_temp = pyRound (ts.foldl min t) ∧
      day.max_temp = pyRound (ts.foldl max t) ∧
      day.description = (pyMaxL (fun d => descs.count d) (ordOf (pySetList descs))).getD "" := by
  unfold aggregateDay at h
  split at h
  · rename_i t ts descs hums spds prss dn h1 h2 h3 h4 h5 h6
    injection h with h'
    subst h'
    exact ⟨t, ts, descs, hums, spds, prss, dn, h1, h2, h3, h4, h5, h6, rfl, rfl, rfl⟩
  · exact Option.noConfusion h

/-! ### Claims -/

/-- C1: `get_current_weather` consults the primary (Visual Crossing)
provider first, for the given city and unit system; the secondary
(OpenWeatherMap) provider is consulted, with the same arguments,
exactly when the primary yields nothing, and the result is `None`
exactly when both yield nothing.  When the primary fails and the
secondary answers, the returned reading is the secondary payload
tagged with `source = "openweathermap"` (so a 15-degree secondary
reading comes back with temperature 15 and the secondary tag). -/
theorem get_current_weather_fallback (env : Env) (city units : String) :
    (∀ r, env.vcCurrentFetch city (unitGroupOf units) = some r →
      get_current_weather env city units = get_vc_current_weather env city units ∧
      (get_current_weather env city units).isSome = true) ∧
    (env.vcCurrentFetch city (unitGroupOf units) = none →
      get_current_weather env city units = get_owm_current_weather env city units) ∧
    (∀ d, env.vcCurrentFetch city (unitGroupOf units) = none →
      env.owmCurrentFetch city units = some d →
      get_current_weather env city units = some { d with source := some "openweathermap" }) ∧
    (get_current_weather env city units = none ↔
      env.vcCurrentFetch city (unitGroupOf units) = none ∧
      env.owmCurrentFetch city units = none) := by
  cases hvc : env.vcCurrentFetch city (unitGroupOf units) <;>
    cases howm : env.owmCurrentFetch city units <;>
    simp [get_current_weather, get_vc_current_weather, get_owm_current_weather, hvc, howm]

/-- C1 witness: with the primary raising and the secondary reporting
15 degrees, the returned reading has temperature 15 and the
secondary provider's source tag. -/
theorem get_current_weather_fallback_witness :
    ∃ w : WDict, get_current_weather fixEnvC1 "London" "metric" = some w ∧
      w.main.bind MainD.temp = some 15 ∧ w.source = some "openweathermap" := by
  obtain ⟨-, -, h3, -⟩ := get_current_weather_fallback fixEnvC1 "London" "metric"
  exact ⟨_, h3 fixOwm15 rfl rfl, rfl, rfl⟩

/-- C2: the normalized reading's pressure is never a raw
provider-unit value: the Visual Crossing branch (current weather and
forecast days alike) multiplies a non-zero provider pressure by
33.8639 before building the record (and a multiplied value never
equals the raw one), while the OpenWeatherMap branch passes its
already-hectopascal `main` object through unchanged. -/
theorem pressure_normalized (env : Env) (city units : String) :
    (∀ r w, env.vcCurrentFetch city (unitGroupOf units) = some r →
      get_vc_current_weather env city units = some w →
      ∃ mn, w.main = some mn ∧
        mn.pressure = some (vcPressure (r.currentConditions.getD VCCurrent.empty).pressure)) ∧
    (∀ p : ℚ, p ≠ 0 → vcPressure (some p) = p * (338639 / 10000) ∧ vcPressure (some p) ≠ p) ∧
    vcPressure none = 0 ∧ vcPressure (some 0) = 0 ∧
    (∀ day item mn, vcForecastItem env day = some item → item.main = some mn →
      mn.pressure = some (vcPressure day.pressure)) ∧
    (∀ d, env.vcCurrentFetch city (unitGroupOf units) = none →
      env.owmCurrentFetch city units = some d →
      ∃ w, get_current_weather env city units = some w ∧ w.main = d.main) := by
  refine ⟨?_, ?_, rfl, ?_, ?_, ?_⟩
  · intro r w hf hw
    unfold get_vc_current_weather at hw
    rw [hf] at hw
    cases hw
    exact ⟨_, rfl, rfl⟩
  · intro p hp
    have hv : vcPressure (some p) = p * (338639 / 10000) := by
      show (if p = 0 then 0 else p * (338639 / 10000)) = p * (338639 / 10000)
      rw [if_neg hp]
    refine ⟨hv, ?_⟩
    rw [hv]
    intro h
    have h1 : (338639 / 10000 : ℚ) = 1 :=
      mul_left_cancel₀ hp (h.trans (mul_one p).symm)
    norm_num at h1
  · simp [vcPressure]
  · intro day item mn hitem hmn
    unfold vcForecastItem at hitem
    split at hitem
    · exact Option.noConfusion hitem
    · split at hitem
      · exact Option.noConfusion hitem
      · injection hitem with h'
        subst h'
        cases hmn
        rfl
  · intro d hvc howm
    unfold get_current_weather get_vc_current_weather get_owm_current_weather
    rw [hvc, howm]
    exact ⟨_, rfl, rfl⟩

/-- C2 witness: a 30 inHg Visual Crossing pressure is normalized to
30 × 33.8639 = 1015.917 hPa, not the raw 30. -/
theorem pressure_normalized_witness :
    ∃ w mn, get_vc_current_weather fixEnvVC "London" "metric" = some w ∧
      w.main = some mn ∧ mn.pressure = some (1015917 / 1000) ∧
      mn.pressure ≠ some 30 := by
  obtain ⟨h1, h2, -, -, -, -⟩ := pressure_normalized fixEnvVC "London" "metric"
  obtain ⟨w, hw⟩ : ∃ w, get_vc_current_weather fixEnvVC "London" "metric" = some w :=
    ⟨_, rfl⟩
  obtain ⟨mn, hmn, hp⟩ := h1 fixVCResp w rfl hw
  obtain ⟨hc1, hc2⟩ := h2 30 (by norm_num)
  have hraw : (fixVCResp.currentConditions.getD VCCurrent.empty).pressure = some 30 := rfl
  rw [hraw] at hp
  refine ⟨w, mn, hw, hmn, ?_, ?_⟩
  · rw [hp, hc1]
    norm_num
  · rw [hp]
    intro hcontra
    exact hc2 (Option.some.inj hcontra)

/-- C3 counterexample: `format_forecast_data` does not enforce
`min_temp ≤ max_temp` for every payload — a Visual-Crossing-tagged
payload whose day reports `temp_min = 20` and `temp_max = 10` is
formatted verbatim, so the claim fails at this input. -/
theorem forecast_minmax_counterexample :
    (format_forecast_data 0 id 10 (some fixFdBad)).map
        (fun d => (d.min_temp, d.max_temp)) = [(20, 10)] ∧
    ¬((20 : ℤ) ≤ 10) := by
  constructor
  · simp only [format_forecast_data, fixFdBad]
    norm_num [optMapM, vcFormatItem, pyRound]
  · decide

/-- C3 amended: for a requested day count of 10 the formatted
forecast always has length at most 10; every aggregated
(OpenWeatherMap-branch) day satisfies `min_temp ≤ max_temp`, and a
Visual-Crossing-branch day satisfies it provided the corresponding
payload day already has `temp_min ≤ temp_max` (the code copies the
payload values without enforcing the inequality). -/
theorem format_forecast_len_minmax (tz : ℤ) (ordOf : List String → List String)
    (fd : Option FDict) :
    (format_forecast_data tz ordOf 10 fd).length ≤ 10 ∧
    (∀ f, fd = some f →
      (f.source = some "visual_crossing" →
        ∀ i ∈ (f.list.getD []).take 10, ∀ m a b, i.main = some m →
          m.temp_min = some a → m.temp_max = some b → a ≤ b) →
      ∀ day ∈ format_forecast_data tz ordOf 10 fd, day.min_temp ≤ day.max_temp) := by
  constructor
  · cases fd with
    | none => simp [format_forecast_data]
    | some f =>
      simp only [format_forecast_data]
      split
      · split
        · rename_i l hm
          rw [optMapM_length hm, List.length_take]
          exact min_le_left _ _
        · simp
      · split
        · simp
        · split
          · rename_i l hm
            rw [optMapM_length hm, List.length_take]
            exact min_le_left _ _
          · simp
  · rintro f rfl hvc day hday
    simp only [format_forecast_data] at hday
    split at hday
    · rename_i hsrc
      split at hday
      · rename_i l hm
        obtain ⟨i, hi, hitem⟩ := optMapM_mem hm hday
        obtain ⟨dt, m, w0, ws, wind, tmin, tmax, desc, hum, spd, prs,
          -, h2, -, -, h5, h6, -, -, -, -, h11, h12⟩ := vcFormatItem_inv hitem
        rw [h11, h12]
        exact pyRound_mono (hvc hsrc i hi m tmin tmax h2 h5 h6)
      · exact absurd hday (List.not_mem_nil day)
    · split at hday
      · exact absurd hday (List.not_mem_nil day)
      · split at hday
        · rename_i l hm
          obtain ⟨p, -, hagg⟩ := optMapM_mem hm hday
          obtain ⟨t, ts, -, -, -, -, -, -, -, -, -, -, -, h7, h8, -⟩ := aggregateDay_inv hagg
          rw [h7, h8]
          exact pyRound_mono (foldl_min_le_foldl_max ts (le_refl t))
        · exact absurd hday (List.not_mem_nil day)

/-- C3 witness: the eight one-date samples with temperatures
10,12,14,16,15,13,11,9 format to at most 10 days, each with
`min_temp ≤ max_temp`. -/
theorem format_forecast_len_minmax_witness :
    (format_forecast_data 0 id 10 (some fixFdOwm8)).length ≤ 10 ∧
    ∀ day ∈ format_forecast_data 0 id 10 (some fixFdOwm8),
      day.min_temp ≤ day.max_temp := by
  obtain ⟨h1, h2⟩ := format_forecast_len_minmax 0 id (some fixFdOwm8)
  refine ⟨h1, h2 fixFdOwm8 rfl ?_⟩
  intro hsrc
  exact absurd (Option.some.inj hsrc) (by decide)

/-- C4 counterexample: the aggregated description is computed with
Python `max(set(descriptions), key=descriptions.count)`, whose
tie-break follows the set's iteration order, not first-encountered
order.  With two tied descriptions seen in the order `a`, `b` and a
set iteration that enumerates `b` first (a legal CPython iteration,
since string hashing is randomized per process), the code picks `b`
while the claimed first-encountered rule picks `a`. -/
theorem description_tiebreak_counterexample :
    (aggregateDay (fun _ => ["b", "a"]) "1970-01-01"
        [fixSample 10 "a", fixSample 12 "b"]).map DayOut.description = some "b" ∧
    optMapM extractDesc [fixSample 10 "a", fixSample 12 "b"] = some ["a", "b"] ∧
    specFirstSeenMode ["a", "b"] = some "a" ∧
    (["b", "a"] : List String).Perm (pySetList ["a", "b"]) ∧
    ("b" : String) ≠ "a" := by
  refine ⟨by decide, by decide, by decide, by decide, by decide⟩

/-- C4 amended: for every one-date group the aggregated description
is a description of maximal frequency among the date's samples, for
every legal set-iteration order (any enumeration of the distinct
descriptions); which of several tied maxima is chosen depends on
that unspecified order, not on first-encountered position. -/
theorem description_is_mode (ordOf : List String → List String) (date : String)
    (items : List FItem) (day : DayOut) (descs : List String)
    (hagg : aggregateDay ordOf date items = some day)
    (hdescs : optMapM extractDesc items = some descs)
    (hord : (ordOf (pySetList descs)).Perm (pySetList descs)) :
    day.description ∈ descs ∧
    ∀ d ∈ descs, descs.count d ≤ descs.count day.description := by
  obtain ⟨t, ts, descs', hums, spds, prss, dn, h1, h2, -, -, -, -, -, -, h9⟩ :=
    aggregateDay_inv hagg
  rw [hdescs] at h2
  injection h2 with h2'
  subst h2'
  have hlen1 := optMapM_length h1
  have hlen2 := optMapM_length hdescs
  have hne : descs ≠ [] := by
    intro h
    rw [h] at hlen2
    simp only [List.length_nil, List.length_cons] at hlen1 hlen2
    omega
  obtain ⟨d0, hd0⟩ : ∃ d0, d0 ∈ descs := by
    cases descs with
    | nil => exact absurd rfl hne
    | cons a as => exact ⟨a, List.mem_cons_self a as⟩
  have hordne : ordOf (pySetList descs) ≠ [] := by
    intro h
    rw [h] at hord
    have h0 : pySetList descs = [] := hord.symm.eq_nil
    exact absurd (h0 ▸ mem_pySetList.mpr hd0) (List.not_mem_nil d0)
  cases hord2 : ordOf (pySetList descs) with
  | nil => exact absurd hord2 hordne
  | cons o os =>
    have hmax : pyMaxL (fun d => descs.count d) (ordOf (pySetList descs)) =
        some (pyMaxFold (fun d => descs.count d) o os) := by
      rw [hord2]; rfl
    rw [hmax, Option.getD_some] at h9
    obtain ⟨hrmem, hrmax⟩ := pyMaxL_spec hmax
    constructor
    · rw [h9]
      exact mem_pySetList.mp (hord.subset hrmem)
    · intro d hd
      rw [h9]
      exact hrmax d (hord.symm.subset (mem_pySetList.mpr hd))

/-- C4 witness: on the same two-sample group with the identity
(insertion-order) set iteration, the aggregated description is one
of the group's descriptions and has maximal count. -/
theorem description_is_mode_witness :
    ∃ day, aggregateDay id "1970-01-01" [fixSample 10 "a", fixSample 12 "b"] = some day ∧
      day.description ∈ (["a", "b"] : List String) ∧
      ∀ d ∈ (["a", "b"] : List String),
        (["a", "b"] : List String).count d ≤
          (["a", "b"] : List String).count day.description := by
  obtain ⟨w, hw⟩ : ∃ w,
      aggregateDay id "1970-01-01" [fixSample 10 "a", fixSample 12 "b"] = some w :=
    ⟨_, rfl⟩
  obtain ⟨hmem, hcount⟩ := description_is_mode id "1970-01-01"
    [fixSample 10 "a", fixSample 12 "b"] w ["a", "b"] hw (by decide) (by decide)
  exact ⟨w, hw, hmem, hcount⟩

/-- C5: duplicating every sample of a one-date group (the whole list
appended to itself) leaves the aggregated day unchanged: min/max are
idempotent under duplication, each arithmetic mean has both numerator
and denominator doubled, the description counts double uniformly, and
the set of distinct descriptions (hence its iteration order) is
unchanged — so every formatted field, and the failure behaviour,
coincide. -/
theorem aggregateDay_duplicate (ordOf : List String → List String) (date : String)
    (l : List FItem) :
    aggregateDay ordOf date (l ++ l) = aggregateDay ordOf date l := by
  rcases hl : l with - | ⟨x, xs⟩
  · rfl
  rw [← hl]
  have hlne : l ≠ [] := by rw [hl]; exact List.cons_ne_nil x xs
  clear hl
  rcases h1 : optMapM extractTemp l with - | ts0
  · simp [aggregateDay, optMapM_append, h1]
  rcases ts0 with - | ⟨t, ts⟩
  · have := optMapM_length h1
    simp only [List.length_nil] at this
    exact absurd (List.length_eq_zero.mp this.symm) hlne
  rcases h2 : optMapM extractDesc l with - | descs
  · simp [aggregateDay, optMapM_append, h1, h2]
  rcases h3 : optMapM extractHumidity l with - | hums
  · simp [aggregateDay, optMapM_append, h1, h2, h3]
  rcases h4 : optMapM extractSpeed l with - | spds
  · simp [aggregateDay, optMapM_append, h1, h2, h3, h4]
  rcases h5 : optMapM extractPressure l with - | prss
  · simp [aggregateDay, optMapM_append, h1, h2, h3, h4, h5]
  rcases h6 : dayNameOfDateStr date with - | dn
  · simp [aggregateDay, optMapM_append, h1, h2, h3, h4, h5, h6]
  simp only [aggregateDay, optMapM_append, h1, h2, h3, h4, h5, h6, List.cons_append,
    Option.some.injEq, DayOut.mk.injEq]
  refine ⟨trivial, trivial, ?_, ?_, ?_, ?_, ?_, ?_, ?_⟩
  · exact congrArg pyRound (foldl_min_append_self t ts)
  · exact congrArg pyRound (foldl_max_append_self t ts)
  · rw [pySetList_append_self]
    have hkey : (fun d => (descs ++ descs).count d) = fun d : String => 2 * descs.count d := by
      funext d
      rw [List.count_append, two_mul]
    rw [hkey, pyMaxL_two_mul]
  · rw [sum_div_len_double]
  · rw [sum_div_len_double]
  · rw [sum_div_len_double]
  · rw [List.map_append, sum_div_len_double]

/-- A proof-friendly unfolding of `get_weather_icon`. -/
theorem get_weather_icon_eq (description : String) :
    get_weather_icon description =
      match iconTable.find? (fun kv => strContains (pyLower description) kv.1) with
      | some kv => kv.2
      | none => defaultIcon := rfl

/-- C6 counterexample: a description matching no keyword gets the
fixed default icon, but that default is the icon of the `few clouds`
table entry, not the icon that the table assigns to `partly cloudy`
descriptions — so the default is not the "partly cloudy" icon. -/
theorem default_icon_counterexample :
    iconTable.all (fun kv => !strContains (pyLower "qqq") kv.1) = true ∧
    get_weather_icon "qqq" = defaultIcon ∧
    iconTable.lookup "few clouds" = some defaultIcon ∧
    some (get_weather_icon "partly cloudy") = iconTable.lookup "partly cloudy" ∧
    get_weather_icon "qqq" ≠ get_weather_icon "partly cloudy" := by
  refine ⟨by decide, by decide, by decide, by decide, by decide⟩

/-- C6 amended: icon lookup is a pure function of the description:
the fixed table's keywords are tried in order against the lower-cased
description, the first substring match wins (so a description
containing both `light rain` and `rain` gets the `light rain` icon),
and an unmatched description gets the fixed default icon — which is
the table's `few clouds` icon, not its `partly cloudy` icon. -/
theorem icon_first_keyword_wins (description : String) :
    ((∀ kv ∈ iconTable, strContains (pyLower description) kv.1 = false) →
      get_weather_icon description = defaultIcon) ∧
    (∀ kv ∈ iconTable, strContains (pyLower description) kv.1 = true →
      ∃ pre kv' post, iconTable = pre ++ kv' :: post ∧
        strContains (pyLower description) kv'.1 = true ∧
        (∀ x ∈ pre, strContains (pyLower description) x.1 = false) ∧
        get_weather_icon description = kv'.2) ∧
    (get_weather_icon "light rain and rain" = (iconTable.lookup "light rain").getD "" ∧
      strContains (pyLower "light rain and rain") "light rain" = true ∧
      strContains (pyLower "light rain and rain") "rain" = true) := by
  refine ⟨?_, ?_, by decide, by decide, by decide⟩
  · intro hnone
    rw [get_weather_icon_eq]
    have hfind : iconTable.find? (fun kv => strContains (pyLower description) kv.1) = none :=
      List.find?_eq_none.mpr fun kv hkv => by rw [hnone kv hkv]; exact Bool.false_ne_true
    rw [hfind]
  · intro kv hkv hmatch
    cases hfind : iconTable.find? (fun kv => strContains (pyLower description) kv.1) with
    | none =>
      exact absurd hmatch (by simpa using List.find?_eq_none.mp hfind kv hkv)
    | some a =>
      obtain ⟨pre, post, hdecomp, hpa, hpre⟩ := find?_decomp hfind
      refine ⟨pre, a, post, hdecomp, hpa, hpre, ?_⟩
      rw [get_weather_icon_eq, hfind]

/-- C6 witness: the unmatched description `qqq` resolves to the
default icon. -/
theorem icon_first_keyword_wins_witness :
    get_weather_icon "qqq" = defaultIcon :=
  (icon_first_keyword_wins "qqq").1 (by decide)

/-- C7 counterexample: `format_current_weather` passes humidity
through unrounded — an input humidity of 5.5 yields a displayed
humidity of 5.5, which is not an integer, so humidity is not rounded
to the nearest integer. -/
theorem humidity_not_rounded_counterexample :
    (format_current_weather 0 "1970-01-01 00:00:00" (some fixHumHalf)).map
        FormattedCurrent.humidity = some (11 / 2) ∧
    ((pyRound ((11 : ℚ) / 2) : ℤ) : ℚ) ≠ 11 / 2 ∧
    (11 / 2 : ℚ) ≠ ((⌊(11 / 2 : ℚ)⌋ : ℤ) : ℚ) := by
  refine ⟨rfl, by norm_num [pyRound], by norm_num⟩

/-- C7 amended: `format_current_weather` rounds temperature,
feels-like and pressure to the nearest integer and wind speed to one
decimal place, but passes humidity through unchanged. -/
theorem format_current_rounding (tz : ℤ) (nowD : String) (w : WDict)
    (hw : w.weather ≠ some []) :
    ∃ r, format_current_weather tz nowD (some w) = some r ∧
      r.temperature = pyRound ((w.main.bind MainD.temp).getD 0) ∧
      r.feels_like = pyRound ((w.main.bind MainD.feels_like).getD 0) ∧
      r.pressure = pyRound ((w.main.bind MainD.pressure).getD 0) ∧
      r.wind_speed = pyRound1 ((w.wind.bind WindD.speed).getD 0) ∧
      r.humidity = (w.main.bind MainD.humidity).getD 0 := by
  rcases hww : w.weather with - | ws
  · simp only [format_current_weather, hww]
    exact ⟨_, rfl, rfl, rfl, rfl, rfl, rfl⟩
  · rcases ws with - | ⟨w0, ws'⟩
    · exact absurd hww hw
    · simp only [format_current_weather, hww]
      exact ⟨_, rfl, rfl, rfl, rfl, rfl, rfl⟩

/-- C7 witness: a 15-degree reading with humidity 70 is formatted
with temperature 15 and humidity 70. -/
theorem format_current_rounding_witness :
    ∃ r, format_current_weather 0 "1970-01-01 00:00:00" (some fixOwm15) = some r ∧
      r.temperature = 15 ∧ r.humidity = 70 := by
  obtain ⟨r, hr, ht, -, -, -, hh⟩ :=
    format_current_rounding 0 "1970-01-01 00:00:00" fixOwm15 (by decide)
  refine ⟨r, hr, ?_, ?_⟩
  · rw [ht]
    norm_num [fixOwm15, pyRound]
  · rw [hh]
    rfl

/-- C8 counterexample: a geocoding failure makes `get_weather_alerts`
return the empty accumulator immediately, even though the primary
provider's native-alert sub-call (which needs no coordinates) would
have contributed an alert — so processing does not continue with the
remaining sub-calls after a geocoding error. -/
theorem alerts_geofail_counterexample :
    get_weather_alerts fixEnvGeoFail "London" = [] ∧
    get_vc_alerts fixEnvGeoFail "London" ≠ [] := by
  constructor
  · rfl
  · have h : get_vc_alerts fixEnvGeoFail "London" =
        [vcAlertRec fixEnvGeoFail fixVCAlert] := rfl
    rw [h]
    exact List.cons_ne_nil _ _

/-- C8 amended: `get_weather_alerts` never fails fatally: an erroring
provider sub-call contributes zero alerts, and with both providers
erroring the result is the empty sequence; however, a geocoding
failure short-circuits the whole function to the empty sequence
without consulting the primary provider's native alerts. -/
theorem alerts_never_fatal (env : Env) (city : String) :
    (get_city_coordinates env city = none → get_weather_alerts env city = []) ∧
    (∀ lat lon, get_city_coordinates env city = some (lat, lon) →
      get_weather_alerts env city = get_owm_alerts env lat lon ++ get_vc_alerts env city) ∧
    (∀ lat lon, env.owmCoordFetch lat lon = none → get_owm_alerts env lat lon = []) ∧
    (env.vcAlertsFetch city = none → get_vc_alerts env city = []) ∧
    ((∀ lat lon, env.owmCoordFetch lat lon = none) → env.vcAlertsFetch city = none →
      get_weather_alerts env city = []) := by
  refine ⟨?_, ?_, ?_, ?_, ?_⟩
  · intro h
    unfold get_weather_alerts
    rw [h]
  · intro lat lon h
    unfold get_weather_alerts
    rw [h]
  · intro lat lon h
    unfold get_owm_alerts
    rw [h]
  · intro h
    unfold get_vc_alerts
    rw [h]
  · intro howm hvc
    have h1 : ∀ lat lon, get_owm_alerts env lat lon = [] := by
      intro lat lon
      unfold get_owm_alerts
      rw [howm lat lon]
    have h2 : get_vc_alerts env city = [] := by
      unfold get_vc_alerts
      rw [hvc]
    unfold get_weather_alerts
    cases hc : get_city_coordinates env city with
    | none => rfl
    | some p =>
      rcases p with ⟨lat, lon⟩
      show get_owm_alerts env lat lon ++ get_vc_alerts env city = []
      rw [h1 lat lon, h2]
      rfl

/-- C8 witness: geocoding succeeds but both providers error, and the
result is the empty sequence rather than an error. -/
theorem alerts_never_fatal_witness :
    get_weather_alerts fixEnvGeoOk "London" = [] := by
  obtain ⟨-, -, -, -, h5⟩ := alerts_never_fatal fixEnvGeoOk "London"
  exact h5 (fun _ _ => rfl) rfl

/-- C9 counterexample: `format_forecast_data` indexes the forecast
fields directly, so a payload whose single record lacks the `main`
object is not completed with defaults — the whole result is discarded
and the empty list returned. -/
theorem forecast_missing_field_counterexample :
    format_forecast_data 0 id 10 (some fixFdMissing) = [] ∧
    (fixFdMissing.list.getD []).length = 1 := by
  exact ⟨by decide, rfl⟩

/-- C9 amended: `format_current_weather` tolerates any absent field
(every field is read with a zero/empty-string default; only a
present-but-empty `weather` array aborts it), and
`format_weather_alerts` formats every alert with defaults for absent
fields; `format_forecast_data`, however, requires its core fields:
if any taken Visual-Crossing item fails to format (a missing direct
indexed field), the entire result is the empty list. -/
theorem formatting_tolerance (tz : ℤ) (nowD : String) :
    (∀ w : WDict, w.weather ≠ some [] →
      ∃ r, format_current_weather tz nowD (some w) = some r) ∧
    (∀ alerts : List AlertRec, (format_weather_alerts alerts).length = alerts.length) ∧
    (∀ a : AlertRec, ∀ fa ∈ format_weather_alerts [a],
      fa.title = a.event.getD "Weather Alert" ∧
      fa.description = a.description.getD "Alert in effect" ∧
      fa.severity = a.severity.getD "Unknown") ∧
    (∀ (ordOf : List String → List String) (days : ℕ) (fd : FDict) (i : FItem),
      fd.source = some "visual_crossing" → i ∈ (fd.list.getD []).take days →
      vcFormatItem tz i = none → format_forecast_data tz ordOf days (some fd) = []) := by
  refine ⟨?_, ?_, ?_, ?_⟩
  · intro w hw
    rcases hww : w.weather with - | ws
    · simp only [format_current_weather, hww]
      exact ⟨_, rfl⟩
    · rcases ws with - | ⟨w0, ws'⟩
      · exact absurd hww hw
      · simp only [format_current_weather, hww]
        exact ⟨_, rfl⟩
  · intro alerts
    unfold format_weather_alerts
    rw [List.length_map]
  · intro a fa hfa
    rcases List.mem_cons.mp hfa with h1 | h1
    · subst h1
      exact ⟨rfl, rfl, rfl⟩
    · exact absurd h1 (List.not_mem_nil fa)
  · intro ordOf days fd i hsrc hmem hnone
    simp only [format_forecast_data]
    rw [if_pos hsrc, optMapM_eq_none hmem hnone]

/-- C9 witness: the all-defaults payload formats to a complete
record, a field-free alert formats with the documented defaults, and
the payload with a missing `main` is discarded entirely. -/
theorem formatting_tolerance_witness :
    (∃ r, format_current_weather 0 "1970-01-01 00:00:00" (some fixWEmpty) = some r) ∧
    (format_weather_alerts [fixAlertNone]).length = 1 ∧
    format_forecast_data 0 id 10 (some fixFdMissing) = [] := by
  obtain ⟨h1, h2, -, h4⟩ := formatting_tolerance 0 "1970-01-01 00:00:00"
  refine ⟨h1 fixWEmpty (by decide), h2 [fixAlertNone], ?_⟩
  exact h4 id 10 fixFdMissing fixItemNoMain rfl (List.mem_cons_self _ _) rfl

/-- C10: the normalized Visual Crossing current reading carries
synthesized `temp_min`/`temp_max` equal to the current temperature
minus and plus 2 (so their difference is always 4), rather than
provider-supplied values. -/
theorem vc_minmax_synthesized (env : Env) (city units : String)
    (r : VCResponse) (w : WDict)
    (hf : env.vcCurrentFetch city (unitGroupOf units) = some r)
    (hw : get_vc_current_weather env city units = some w) :
    ∃ mn : MainD, w.main = some mn ∧
      mn.temp = some ((r.currentConditions.getD VCCurrent.empty).temp.getD 0) ∧
      mn.temp_min = some ((r.currentConditions.getD VCCurrent.empty).temp.getD 0 - 2) ∧
      mn.temp_max = some ((r.currentConditions.getD VCCurrent.empty).temp.getD 0 + 2) ∧
      ∀ a b : ℚ, mn.temp_min = some a → mn.temp_max = some b → b - a = 4 := by
  unfold get_vc_current_weather at hw
  rw [hf] at hw
  cases hw
  refine ⟨_, rfl, rfl, rfl, rfl, ?_⟩
  intro a b ha hb
  cases ha
  cases hb
  ring

/-- C10 witness: a 20-degree Visual Crossing reading is normalized
with `temp_min = 18` and `temp_max = 22`. -/
theorem vc_minmax_synthesized_witness :
    ∃ w : WDict, ∃ mn : MainD,
      get_vc_current_weather fixEnvVC "London" "metric" = some w ∧
      w.main = some mn ∧ mn.temp_min = some 18 ∧ mn.temp_max = some 22 := by
  obtain ⟨w, hw⟩ : ∃ w, get_vc_current_weather fixEnvVC "London" "metric" = some w :=
    ⟨_, rfl⟩
  obtain ⟨mn, h1, -, h3, h4, -⟩ :=
    vc_minmax_synthesized fixEnvVC "London" "metric" fixVCResp w rfl hw
  refine ⟨w, mn, hw, h1, ?_, ?_⟩
  · rw [h3]; norm_num [fixVCResp]
  · rw [h4]; norm_num [fixVCResp]

end Weather
